import Mathlib

/-!
Verification of the GH-Actions-Testing starter template.

The repository consists of a Drizzle ORM schema (app/lib/db/schema.ts), a
multi-stage Dockerfile, and four GitHub Actions workflow definitions whose
YAML is recorded in docs/CI-CD-SETUP-GUIDE.md.  This file gives a shallow
embedding of those artifacts and proves properties about them:

* the declared database schema (tables, columns, constraints);
* the migration-drift check run by the pr-checks workflow
  (npm run db:generate followed by git status --porcelain drizzle/);
* the Release Please version-bump mapping documented for conventional
  commit prefixes;
* the Trivy vulnerability-scan configurations of the pr-checks and
  staging-deploy workflows;
* the concurrency / cancel-in-progress configuration of the workflows;
* the production image-promotion job (retag latest as the release tag);
* the container HEALTHCHECK probe from the Dockerfile.

External tools that the repository merely invokes (drizzle-kit, the
Release Please action, Trivy, the GitHub Actions runner, Docker) are not
part of the repository; where a property depends on their behaviour the
corresponding definition is modelled from the specification / the
documentation in the repository, and is marked as such in its doc comment.
-/

/-! ## Database schema (app/lib/db/schema.ts) -/

/-- Column types used by the schema: drizzle-orm pg-core text, serial and
timestamp builders. -/
inductive ColumnType where
  | text
  | serial
  | timestamp
deriving DecidableEq, Repr

/-- A single column declaration: the SQL name, its type, and the modifiers
applied by the drizzle builder chain. -/
structure Column where
  name : String
  ty : ColumnType
  isNotNull : Bool
  isUnique : Bool
  isPrimaryKey : Bool
  hasDefaultNow : Bool
deriving DecidableEq, Repr

/-- drizzle-orm text column builder: nullable by default. -/
def text (n : String) : Column :=
  { name := n, ty := ColumnType.text, isNotNull := false, isUnique := false,
    isPrimaryKey := false, hasDefaultNow := false }

/-- drizzle-orm serial column builder: a PostgreSQL serial is an
auto-incrementing integer and is implicitly not null. -/
def serial (n : String) : Column :=
  { name := n, ty := ColumnType.serial, isNotNull := true, isUnique := false,
    isPrimaryKey := false, hasDefaultNow := false }

/-- drizzle-orm timestamp column builder: nullable by default. -/
def timestamp (n : String) : Column :=
  { name := n, ty := ColumnType.timestamp, isNotNull := false, isUnique := false,
    isPrimaryKey := false, hasDefaultNow := false }

/-- The .primaryKey() modifier; a primary key column is implicitly not null. -/
def Column.primaryKey (c : Column) : Column :=
  { c with isPrimaryKey := true, isNotNull := true }

/-- The .notNull() modifier. -/
def Column.notNull (c : Column) : Column :=
  { c with isNotNull := true }

/-- The .unique() modifier: a database-level unique constraint. -/
def Column.unique (c : Column) : Column :=
  { c with isUnique := true }

/-- The .defaultNow() modifier: the column defaults to the insert time. -/
def Column.defaultNow (c : Column) : Column :=
  { c with hasDefaultNow := true }

/-- A table declaration: SQL table name and ordered columns. -/
structure Table where
  name : String
  columns : List Column
deriving DecidableEq, Repr

/-- drizzle-orm pgTable. -/
def pgTable (n : String) (cs : List Column) : Table :=
  { name := n, columns := cs }

/-- export const items = pgTable("items", { name: text("name").primaryKey() }) -/
def items : Table :=
  pgTable "items" [(text "name").primaryKey]

/-- export const users = pgTable("users", {...}) from app/lib/db/schema.ts. -/
def users : Table :=
  pgTable "users"
    [ (serial "id").primaryKey,
      ((text "email").notNull).unique,
      text "name",
      ((timestamp "created_at").defaultNow).notNull ]

/-- The full declared schema: the two exported tables of schema.ts. -/
def declaredSchema : List Table := [items, users]

/-! ## Release Please version bumps

The release-please workflow delegates versioning to the third-party
googleapis/release-please-action.  The repository documents the mapping
from conventional-commit prefixes to version bumps in
docs/CI-CD-SETUP-GUIDE.md (Conventional Commit Prefixes table) and in
CI-CD-IMPLEMENTATION.md; the definitions below embed that documented
mapping. -/

/-- Semantic version: major.minor.patch. -/
structure Version where
  major : Nat
  minor : Nat
  patch : Nat
deriving DecidableEq, Repr

/-- The version-bump impact of a commit, ordered none < patch < minor < major. -/
inductive Bump where
  | noRelease
  | patch
  | minor
  | major
deriving DecidableEq, Repr

/-- Numeric rank of a bump, used to take the highest-impact bump of a
commit set. -/
def Bump.rank : Bump → Nat
  | Bump.noRelease => 0
  | Bump.patch => 1
  | Bump.minor => 2
  | Bump.major => 3

/-- Does the list pat occur as a leading segment of the list s? -/
def startsWithL : List Char → List Char → Bool
  | [], _ => true
  | _ :: _, [] => false
  | p :: ps, c :: cs => p = c && startsWithL ps cs

/-- Does the list tok occur anywhere inside the list s? -/
def containsTok (tok : List Char) : List Char → Bool
  | [] => tok.isEmpty
  | c :: cs => startsWithL tok (c :: cs) || containsTok tok cs

/-- Modelled from the documented Conventional Commit Prefixes table
(docs/CI-CD-SETUP-GUIDE.md): a feat!-prefixed or BREAKING CHANGE-marked
commit is a major bump, a feat-prefixed commit a minor bump, a
fix-prefixed commit a patch bump; anything else (chore:, docs:, test:,
ci:, ...) triggers no release.  The real mapping lives in the external
Release Please action, which is not part of this repository. -/
def commitBump (msg : String) : Bump :=
  let m := msg.toList
  if startsWithL "feat!:".toList m || containsTok "BREAKING CHANGE:".toList m then
    Bump.major
  else if startsWithL "feat:".toList m then
    Bump.minor
  else if startsWithL "fix:".toList m then
    Bump.patch
  else
    Bump.noRelease

/-- The highest-impact bump among the commit messages merged since the
last release. -/
def releaseBump (msgs : List String) : Bump :=
  msgs.foldr (fun m acc => if (commitBump m).rank ≤ acc.rank then acc else commitBump m)
    Bump.noRelease

/-- Applying a bump to a version, following the documented examples
(1.0.0 → 1.1.0 for minor, 1.1.0 → 1.1.1 for patch, 1.1.1 → 2.0.0 for
major). -/
def applyBump : Bump → Version → Version
  | Bump.major, v => { major := v.major + 1, minor := 0, patch := 0 }
  | Bump.minor, v => { major := v.major, minor := v.minor + 1, patch := 0 }
  | Bump.patch, v => { major := v.major, minor := v.minor, patch := v.patch + 1 }
  | Bump.noRelease, v => v

/-- The next release cut for a set of commit messages: none when no
releasable commit is present, otherwise the previous version bumped once
by the highest-impact bump. -/
def nextRelease (v : Version) (msgs : List String) : Option Version :=
  match releaseBump msgs with
  | Bump.noRelease => Option.none
  | b => Option.some (applyBump b v)

example : commitBump "feat: add search" = Bump.minor := by decide
example : commitBump "fix: typo" = Bump.patch := by decide
example : releaseBump ["feat: add search", "fix: typo"] = Bump.minor := by decide

/-! ## Migration drift check (pr-checks.yml, "Check for migration drift")

The check runs npm run db:generate and then fails exactly when
git status --porcelain drizzle/ prints anything, i.e. when the working
copy of the drizzle/ directory differs from the committed one.  The
drizzle/ directory is modelled as its list of migration files together
with the snapshot state recorded by the migration journal; a repository
checkout carries a committed and a working copy of it. -/

/-- The drizzle/ directory: the ordered migration files (path, content)
plus the schema snapshot recorded by the migration journal. -/
structure Drizzle where
  files : List (String × String)
  snapshot : List Table
deriving DecidableEq, Repr

/-- A repository checkout: the schema declared in app/lib/db/schema.ts,
the committed drizzle/ directory, and its working-tree copy. -/
structure Workspace where
  declared : List Table
  committed : Drizzle
  working : Drizzle
deriving DecidableEq, Repr

/-- Content of a file in a directory listing, by path. -/
def lookupFile (fs : List (String × String)) (n : String) : Option String :=
  (fs.find? (fun p => p.1 == n)).map Prod.snd

/-- Path of the idx-th generated migration file under drizzle/. -/
def migrationFileName (idx : Nat) : String :=
  "drizzle/" ++ toString idx ++ "_migration.sql"

/-- Path of the migration journal / snapshot file under drizzle/. -/
def snapshotFileName : String := "drizzle/meta/_journal.json"

/-- Rendering of the SQL diff between the recorded snapshot and the
declared schema (the content of a generated migration file). -/
def migrationSql (old new : List Table) : String :=
  "-- diff " ++ String.intercalate ", " (old.map Table.name) ++
    " -> " ++ String.intercalate ", " (new.map Table.name)

/-- Modelled from the spec: drizzle-kit generate (npm run db:generate) is an
external tool, not part of this repository.  Per the spec it takes the
declared schema and the migration directory with its recorded snapshot
state, appends exactly one new migration file when the schema changed
since the last snapshot, and is idempotent: against a schema with no
changes it produces no new files. -/
def generate (w : Workspace) : Workspace :=
  if w.declared = w.working.snapshot then w
  else
    { w with working :=
        { files := w.working.files ++
            [(migrationFileName w.working.files.length,
              migrationSql w.working.snapshot w.declared)],
          snapshot := w.declared } }

/-- Paths under drizzle/ at which the working tree differs from the
commit: working files that are new or modified, plus committed files
missing from the working tree. -/
def dirtyFiles (committed working : List (String × String)) : List String :=
  (working.filter (fun p => decide (lookupFile committed p.1 ≠ Option.some p.2))).map Prod.fst
    ++ (committed.filter (fun p => decide (lookupFile working p.1 = Option.none))).map Prod.fst

/-- git status --porcelain drizzle/ : the dirty paths of the drizzle/
directory, the snapshot journal included. -/
def gitStatusPorcelain (w : Workspace) : List String :=
  dirtyFiles w.committed.files w.working.files ++
    (if w.working.snapshot = w.committed.snapshot then [] else [snapshotFileName])

/-- Outcome of a CI step: pass, or fail surfacing the dirty paths. -/
inductive CheckResult where
  | pass
  | fail (dirty : List String)
deriving DecidableEq, Repr

/-- The "Check for migration drift" step of pr-checks.yml: run
npm run db:generate, then exit 1 surfacing git status drizzle/ if any
uncommitted file content appeared, else pass. -/
def driftCheck (w : Workspace) : CheckResult :=
  let w' := generate w
  match gitStatusPorcelain w' with
  | [] => CheckResult.pass
  | d :: ds => CheckResult.fail (d :: ds)

/-! ## Trivy vulnerability scans

pr-checks.yml runs a filesystem scan with severity CRITICAL,HIGH,
ignore-unfixed true and exit-code 1; staging-deploy.yml scans the built
image with severity CRITICAL,HIGH and exit-code 0 (SARIF output uploaded
to the Security tab). -/

/-- Trivy severity levels. -/
inductive Severity where
  | low
  | medium
  | high
  | critical
deriving DecidableEq, Repr

/-- What a Trivy scan targets. -/
inductive ScanTarget where
  | filesystem
  | image
deriving DecidableEq, Repr

/-- The with: block of an aquasecurity/trivy-action invocation, as
configured in the workflows. -/
structure TrivyConfig where
  target : ScanTarget
  severityFilter : List Severity
  exitCode : Nat
  ignoreUnfixed : Bool
deriving DecidableEq, Repr

/-- The Security Scan job of pr-checks.yml: filesystem scan, severity
CRITICAL,HIGH, ignore-unfixed true, exit-code 1. -/
def prChecksScan : TrivyConfig :=
  { target := ScanTarget.filesystem,
    severityFilter := [Severity.critical, Severity.high],
    exitCode := 1,
    ignoreUnfixed := true }

/-- The scan job of staging-deploy.yml: image scan, severity
CRITICAL,HIGH, exit-code 0 (the action default ignore-unfixed false). -/
def stagingImageScan : TrivyConfig :=
  { target := ScanTarget.image,
    severityFilter := [Severity.critical, Severity.high],
    exitCode := 0,
    ignoreUnfixed := false }

/-- The vulnerability scans configured across the four pipelines. -/
def pipelineScans : List TrivyConfig := [prChecksScan, stagingImageScan]

/-- A vulnerability finding: its severity and whether a fixed version is
available. -/
structure Finding where
  severity : Severity
  fixAvailable : Bool
deriving DecidableEq, Repr

/-- Modelled from the Trivy documentation of the options the workflows
set: a finding is reported when its severity is in the configured filter
and, under ignore-unfixed, a fix is available. -/
def reported (cfg : TrivyConfig) (f : Finding) : Bool :=
  decide (f.severity ∈ cfg.severityFilter) && (!cfg.ignoreUnfixed || f.fixAvailable)

/-- Modelled from the Trivy documentation: the scan exits with the
configured exit-code when any finding is reported, and with 0 otherwise.
The CI step fails exactly when the exit code is nonzero. -/
def scanExitCode (cfg : TrivyConfig) (findings : List Finding) : Nat :=
  if findings.any (reported cfg) then cfg.exitCode else 0

/-- Does the scan step halt its pipeline stage with a failure? -/
def scanStepFails (cfg : TrivyConfig) (findings : List Finding) : Bool :=
  scanExitCode cfg findings != 0

/-! ## Workflow concurrency (cancel-in-progress)

pr-checks.yml and staging-deploy.yml declare
concurrency: group: github.workflow-github.ref, cancel-in-progress: true.
release-please.yml and production-deploy.yml declare no concurrency
block. -/

/-- The group expression used by the workflows that declare concurrency:
the workflow name and the git ref, joined by a dash. -/
inductive GroupExpr where
  | workflowRef
deriving DecidableEq, Repr

/-- A workflow-level concurrency block. -/
structure Concurrency where
  group : GroupExpr
  cancelInProgress : Bool
deriving DecidableEq, Repr

/-- A workflow definition: its name and optional concurrency block. -/
structure Workflow where
  name : String
  concurrency : Option Concurrency
deriving DecidableEq, Repr

/-- .github/workflows/pr-checks.yml. -/
def prChecks : Workflow :=
  { name := "PR Checks",
    concurrency := Option.some { group := GroupExpr.workflowRef, cancelInProgress := true } }

/-- .github/workflows/staging-deploy.yml. -/
def stagingDeploy : Workflow :=
  { name := "Staging Deploy",
    concurrency := Option.some { group := GroupExpr.workflowRef, cancelInProgress := true } }

/-- .github/workflows/release-please.yml: no concurrency block. -/
def releasePlease : Workflow :=
  { name := "Release Please", concurrency := Option.none }

/-- .github/workflows/production-deploy.yml: no concurrency block. -/
def productionDeploy : Workflow :=
  { name := "Production Deploy", concurrency := Option.none }

/-- The four pipelines of the repository. -/
def pipelines : List Workflow :=
  [prChecks, stagingDeploy, releasePlease, productionDeploy]

/-- A triggered run: the workflow it runs and the git ref it runs for. -/
structure Run where
  workflow : Workflow
  ref : String
deriving DecidableEq, Repr

/-- Evaluation of a concurrency group expression for a run. -/
def evalGroup : GroupExpr → Run → String
  | GroupExpr.workflowRef, r => r.workflow.name ++ "-" ++ r.ref

/-- Modelled from the GitHub Actions concurrency semantics the workflows
rely on: a newly triggered run cancels an in-progress run exactly when
the new run's workflow declares cancel-in-progress concurrency and both
runs evaluate to the same concurrency group; runs of workflows without a
concurrency block belong to no group and are never cancelled. -/
def cancels (newRun oldRun : Run) : Bool :=
  match newRun.workflow.concurrency, oldRun.workflow.concurrency with
  | Option.some cn, Option.some co =>
      cn.cancelInProgress && decide (evalGroup cn.group newRun = evalGroup co.group oldRun)
  | _, _ => false

/-! ## Production image promotion (production-deploy.yml)

On a published release, the promote-image job pulls the image tagged
latest from the registry, retags it with the release tag, and pushes the
version tag.  The registry is modelled as a tag-to-digest map. -/

/-- A container registry: tags mapped to image digests. -/
structure Registry where
  tags : List (String × Nat)
deriving DecidableEq, Repr

/-- The digest a tag currently points to, if any. -/
def Registry.digestOf (reg : Registry) (tag : String) : Option Nat :=
  (reg.tags.find? (fun p => p.1 == tag)).map Prod.snd

/-- Pushing a tag: the tag now points to the given digest. -/
def Registry.push (reg : Registry) (tag : String) (digest : Nat) : Registry :=
  { tags := (tag, digest) :: reg.tags.filter (fun p => p.1 != tag) }

/-- The promote-image job: docker pull of the latest tag (the job fails
when it does not exist), docker tag with the release tag, docker push of
the version tag.  The release's tag name is its only input; the commit
the release points to is never consulted. -/
def promoteImage (reg : Registry) (releaseTag : String) : Option Registry :=
  match reg.digestOf "latest" with
  | Option.none => Option.none
  | Option.some digest => Option.some (reg.push releaseTag digest)

/-! ## Container health probe (Dockerfile HEALTHCHECK) -/

/-- The HEALTHCHECK options of the Dockerfile. -/
structure HealthcheckConfig where
  intervalSeconds : Nat
  timeoutSeconds : Nat
  startPeriodSeconds : Nat
  retries : Nat
deriving DecidableEq, Repr

/-- HEALTHCHECK --interval=30s --timeout=3s --start-period=5s --retries=3. -/
def dockerfileHealthcheck : HealthcheckConfig :=
  { intervalSeconds := 30, timeoutSeconds := 3, startPeriodSeconds := 5, retries := 3 }

/-- process.env.PORT || 3000 from the HEALTHCHECK command. -/
def resolvePort (envPort : Option Nat) : Nat :=
  match envPort with
  | Option.some p => p
  | Option.none => 3000

/-- Exit code of the probe command
node -e "require('http').get('http://localhost:PORT/health', res =>
process.exit(res.statusCode === 200 ? 0 : 1))": 0 when the response
status is exactly 200, 1 otherwise; when no response arrives the get
call's error event is unhandled and node exits nonzero (modelled as 1). -/
def healthProbeExit (response : Option Nat) : Nat :=
  match response with
  | Option.some code => if code = 200 then 0 else 1
  | Option.none => 1

/-- Modelled from the Docker HEALTHCHECK semantics the Dockerfile relies
on: the container is marked unhealthy once the number of consecutive
probe failures reaches the configured retries. -/
def markedUnhealthy (cfg : HealthcheckConfig) (consecutiveFailures : Nat) : Bool :=
  decide (cfg.retries ≤ consecutiveFailures)

/-! ## Helper lemmas about directory listings -/

/-- In a listing with no duplicate paths, lookup finds each entry's own
content. -/
lemma lookupFile_eq_of_nodup (fs : List (String × String))
    (h : (fs.map Prod.fst).Nodup) {p : String × String} (hp : p ∈ fs) :
    lookupFile fs p.1 = Option.some p.2 := by
  induction fs with
  | nil => cases hp
  | cons q rest ih =>
    rw [List.map_cons, List.nodup_cons] at h
    rcases List.mem_cons.mp hp with rfl | hmem
    · simp [lookupFile, List.find?]
    · have hq : (q.1 == p.1) = false := by
        refine beq_eq_false_iff_ne.mpr ?_
        intro he
        exact h.1 (he ▸ List.mem_map_of_mem Prod.fst hmem)
      have hr := ih h.2 hmem
      simpa [lookupFile, List.find?, hq] using hr

/-- Lookup in an extended listing still finds entries of the original
listing. -/
lemma lookupFile_append_left {fs gs : List (String × String)} {n v : String}
    (h : lookupFile fs n = Option.some v) :
    lookupFile (fs ++ gs) n = Option.some v := by
  unfold lookupFile at h ⊢
  rcases hf : fs.find? (fun p => p.1 == n) with _ | q
  · rw [hf] at h; cases h
  · rw [List.find?_append, hf]
    rw [hf] at h
    simpa [Option.or] using h

/-- A duplicate-free directory is not dirty against itself (modified or
deleted entries). -/
lemma dirtyFiles_self (fs : List (String × String))
    (h : (fs.map Prod.fst).Nodup) : dirtyFiles fs fs = [] := by
  unfold dirtyFiles
  rw [List.append_eq_nil]
  constructor
  · rw [List.map_eq_nil_iff, List.filter_eq_nil_iff]
    intro p hp
    simp [lookupFile_eq_of_nodup fs h hp]
  · rw [List.map_eq_nil_iff, List.filter_eq_nil_iff]
    intro p hp
    simp [lookupFile_eq_of_nodup fs h hp]

/-- Appending one fresh file to a clean checkout dirties exactly that
file. -/
lemma dirtyFiles_append_fresh (fs : List (String × String)) (n sql : String)
    (hnodup : (fs.map Prod.fst).Nodup)
    (hfresh : lookupFile fs n = Option.none) :
    dirtyFiles fs (fs ++ [(n, sql)]) = [n] := by
  unfold dirtyFiles
  have h₁ : ((fs ++ [(n, sql)]).filter
      (fun p => decide (lookupFile fs p.1 ≠ Option.some p.2))).map Prod.fst = [n] := by
    rw [List.filter_append]
    have hfs : fs.filter (fun p => decide (lookupFile fs p.1 ≠ Option.some p.2)) = [] := by
      rw [List.filter_eq_nil_iff]
      intro p hp
      simp [lookupFile_eq_of_nodup fs hnodup hp]
    rw [hfs]
    simp [hfresh]
  have h₂ : (fs.filter
      (fun p => decide (lookupFile (fs ++ [(n, sql)]) p.1 = Option.none))).map Prod.fst = [] := by
    rw [List.map_eq_nil_iff, List.filter_eq_nil_iff]
    intro p hp
    simp [lookupFile_append_left (lookupFile_eq_of_nodup fs hnodup hp)]
  rw [h₁, h₂, List.append_nil]

/-- Generation is the identity when the declared schema matches the
recorded snapshot. -/
lemma generate_eq_self (w : Workspace) (hd : w.declared = w.working.snapshot) :
    generate w = w := by
  simp [generate, hd]

/-- A clean, duplicate-free checkout has an empty porcelain status. -/
lemma gitStatusPorcelain_eq_nil (w : Workspace)
    (hclean : w.working = w.committed)
    (hnodup : (w.working.files.map Prod.fst).Nodup) :
    gitStatusPorcelain w = [] := by
  unfold gitStatusPorcelain
  rw [hclean] at hnodup ⊢
  simp [dirtyFiles_self _ hnodup]

/-- C1: the migration-drift check re-runs the generation step and fails
exactly when it produces new, uncommitted content in the migrations
directory; on failure it surfaces the generated-but-uncommitted paths
(the new migration file and the updated snapshot journal) as the
diagnostic, and it never touches the committed migration directory.
Hypotheses: the CI checkout is clean (working tree equals the commit),
paths are duplicate-free, and the next generated file name is fresh. -/
theorem drift_check_flags_uncommitted_generation (w : Workspace)
    (hclean : w.working = w.committed)
    (hnodup : (w.working.files.map Prod.fst).Nodup)
    (hfresh : lookupFile w.working.files
      (migrationFileName w.working.files.length) = Option.none) :
    (driftCheck w = CheckResult.pass ↔ (generate w).working = w.working) ∧
    ((generate w).working ≠ w.working →
      driftCheck w = CheckResult.fail
        [migrationFileName w.working.files.length, snapshotFileName]) ∧
    (generate w).committed = w.committed := by
  by_cases hd : w.declared = w.working.snapshot
  · have hg : generate w = w := generate_eq_self w hd
    have hnil : gitStatusPorcelain w = [] := gitStatusPorcelain_eq_nil w hclean hnodup
    have hdc : driftCheck w = CheckResult.pass := by
      simp [driftCheck, hg, hnil]
    refine ⟨by simp [hdc, hg], fun hne => absurd (by rw [hg]) hne, by rw [hg]⟩
  · have hg : generate w =
        { w with working :=
          { files := w.working.files ++
              [(migrationFileName w.working.files.length,
                migrationSql w.working.snapshot w.declared)],
            snapshot := w.declared } } := by
      simp [generate, hd]
    have hcommitted : (generate w).committed = w.committed := by rw [hg]
    have hdirty : dirtyFiles (generate w).committed.files (generate w).working.files =
        [migrationFileName w.working.files.length] := by
      rw [hg]
      show dirtyFiles w.committed.files _ = _
      rw [← hclean]
      exact dirtyFiles_append_fresh _ _ _ hnodup hfresh
    have hsnap : ¬((generate w).working.snapshot = (generate w).committed.snapshot) := by
      rw [hg]
      show ¬(w.declared = w.committed.snapshot)
      rw [← hclean]
      exact hd
    have hporc : gitStatusPorcelain (generate w) =
        [migrationFileName w.working.files.length, snapshotFileName] := by
      unfold gitStatusPorcelain
      rw [hdirty, if_neg hsnap]
      rfl
    have hdc : driftCheck w = CheckResult.fail
        [migrationFileName w.working.files.length, snapshotFileName] := by
      simp [driftCheck, hporc]
    refine ⟨?_, fun _ => hdc, hcommitted⟩
    constructor
    · intro hpass
      rw [hdc] at hpass
      cases hpass
    · intro hw
      exfalso
      rw [hg] at hw
      have hfiles := congrArg Drizzle.files hw
      simp at hfiles

/-- Witness for C1: a schema with one added column (a bio column on the
users table) against a clean checkout whose migrations reflect the
original schema; the drift check fails and surfaces the generated
files. -/
theorem drift_check_flags_uncommitted_generation_witness :
    driftCheck
      { declared := [items, { users with columns := users.columns ++ [text "bio"] }],
        committed := { files := [], snapshot := declaredSchema },
        working := { files := [], snapshot := declaredSchema } } =
      CheckResult.fail [migrationFileName 0, snapshotFileName] :=
  (drift_check_flags_uncommitted_generation _ (by rfl) (by decide) (by rfl)).2.1 (by decide)

/-- C2: generation is idempotent: on a schema with no pending changes
(the recorded snapshot already reflects the declared schema) it produces
zero new files, so on a clean duplicate-free checkout the drift check
passes. -/
theorem generation_idempotent_for_unchanged_schema (w : Workspace)
    (hnochange : w.declared = w.working.snapshot)
    (hclean : w.working = w.committed)
    (hnodup : (w.working.files.map Prod.fst).Nodup) :
    generate w = w ∧ driftCheck w = CheckResult.pass := by
  have hg : generate w = w := generate_eq_self w hnochange
  refine ⟨hg, ?_⟩
  have hnil : gitStatusPorcelain w = [] := gitStatusPorcelain_eq_nil w hclean hnodup
  simp [driftCheck, hg, hnil]

/-- Witness for C2: a checkout whose committed migration already
reflects the declared two-table schema; generation adds nothing and the
check passes. -/
theorem generation_idempotent_witness :
    generate
      { declared := declaredSchema,
        committed := { files := [(migrationFileName 0, "create tables")],
                       snapshot := declaredSchema },
        working := { files := [(migrationFileName 0, "create tables")],
                     snapshot := declaredSchema } } =
      { declared := declaredSchema,
        committed := { files := [(migrationFileName 0, "create tables")],
                       snapshot := declaredSchema },
        working := { files := [(migrationFileName 0, "create tables")],
                     snapshot := declaredSchema } } ∧
    driftCheck
      { declared := declaredSchema,
        committed := { files := [(migrationFileName 0, "create tables")],
                       snapshot := declaredSchema },
        working := { files := [(migrationFileName 0, "create tables")],
                     snapshot := declaredSchema } } = CheckResult.pass :=
  generation_idempotent_for_unchanged_schema _ rfl rfl (by decide)

/-- C6: the drift check makes committed migration files immutable in the
working tree: whenever a file committed under drizzle/ carries different
content in the working copy, the directory stays dirty after
regeneration (generation only ever appends new files) and the check
fails, listing that file. -/
theorem committed_migrations_immutable (w : Workspace) (f c c' : String)
    (hcommitted : lookupFile w.committed.files f = Option.some c)
    (hworking : (f, c') ∈ w.working.files)
    (hedit : c' ≠ c) :
    ∃ ds, driftCheck w = CheckResult.fail ds ∧ f ∈ ds := by
  have hmem : (f, c') ∈ (generate w).working.files := by
    by_cases hd : w.declared = w.working.snapshot
    · rw [generate_eq_self w hd]
      exact hworking
    · simp only [generate, if_neg hd]
      exact List.mem_append_left _ hworking
  have hdirtypred :
      (decide (lookupFile w.committed.files f ≠ Option.some c') = true) := by
    rw [hcommitted]
    simpa using (Ne.symm hedit)
  have hin : f ∈ dirtyFiles w.committed.files (generate w).working.files := by
    unfold dirtyFiles
    refine List.mem_append_left _ ?_
    exact List.mem_map_of_mem Prod.fst (List.mem_filter.mpr ⟨hmem, hdirtypred⟩)
  have hcom : (generate w).committed = w.committed := by
    by_cases hd : w.declared = w.working.snapshot
    · rw [generate_eq_self w hd]
    · simp only [generate, if_neg hd]
  have hporc : f ∈ gitStatusPorcelain (generate w) := by
    unfold gitStatusPorcelain
    rw [hcom]
    exact List.mem_append_left _ hin
  rcases hl : gitStatusPorcelain (generate w) with _ | ⟨d, ds⟩
  · rw [hl] at hporc
    cases hporc
  · rw [hl] at hporc
    exact ⟨d :: ds, by simp [driftCheck, hl], hporc⟩

/-- Witness for C6: a checkout where the single committed migration file
has been edited in the working tree; the check fails and lists it. -/
theorem committed_migrations_immutable_witness :
    ∃ ds,
      driftCheck
        { declared := declaredSchema,
          committed := { files := [(migrationFileName 0, "create table items")],
                         snapshot := declaredSchema },
          working := { files := [(migrationFileName 0, "create table items tampered")],
                       snapshot := declaredSchema } } = CheckResult.fail ds ∧
      migrationFileName 0 ∈ ds :=
  committed_migrations_immutable _ (migrationFileName 0)
    "create table items" "create table items tampered" rfl (by decide) (by decide)

/-- C8: the declared schema is exactly the two tables of the data model:
items with a single text column name that is its own primary key, and
users with a serial (not-null) integer primary key id, a not-null unique
text email, a nullable text name and a not-null created_at timestamp
defaulted to the insert time; email uniqueness is a column-level
database constraint. -/
theorem schema_matches_data_model :
    declaredSchema = [items, users] ∧
    items = { name := "items",
              columns := [{ name := "name", ty := ColumnType.text, isNotNull := true,
                            isUnique := false, isPrimaryKey := true,
                            hasDefaultNow := false }] } ∧
    users = { name := "users",
              columns :=
                [ { name := "id", ty := ColumnType.serial, isNotNull := true,
                    isUnique := false, isPrimaryKey := true, hasDefaultNow := false },
                  { name := "email", ty := ColumnType.text, isNotNull := true,
                    isUnique := true, isPrimaryKey := false, hasDefaultNow := false },
                  { name := "name", ty := ColumnType.text, isNotNull := false,
                    isUnique := false, isPrimaryKey := false, hasDefaultNow := false },
                  { name := "created_at", ty := ColumnType.timestamp, isNotNull := true,
                    isUnique := false, isPrimaryKey := false,
                    hasDefaultNow := true } ] } := by
  decide

/-- C3: for the commit set of one feat commit and one fix commit merged
since the last release, the next release bumps the minor component
exactly once: the released version is the previous one with minor
incremented by one and patch reset to zero (so no additional patch bump
is applied). -/
theorem feat_fix_release_bumps_minor_once (v : Version) :
    nextRelease v ["feat: add search", "fix: typo"] =
      Option.some { major := v.major, minor := v.minor + 1, patch := 0 } := by
  have h : releaseBump ["feat: add search", "fix: typo"] = Bump.minor := by decide
  simp [nextRelease, h, applyBump]

/-- A token is a leading segment of itself extended by anything. -/
lemma startsWithL_append_self (tok rest : List Char) :
    startsWithL tok (tok ++ rest) = true := by
  induction tok with
  | nil => rfl
  | cons p ps ih => simp [startsWithL, ih]

/-- An occurrence of a token survives prepending more text. -/
lemma containsTok_append_left (tok l₁ l₂ : List Char) (h : containsTok tok l₂ = true) :
    containsTok tok (l₁ ++ l₂) = true := by
  induction l₁ with
  | nil => simpa
  | cons c cs ih => simp [containsTok, ih]

/-- A nonempty token occurs in any text starting with it. -/
lemma containsTok_append_here (tok rest : List Char) (h : tok ≠ []) :
    containsTok tok (tok ++ rest) = true := by
  cases tok with
  | nil => exact absurd rfl h
  | cons p ps =>
    have hs := startsWithL_append_self (p :: ps) rest
    simp only [List.cons_append] at hs ⊢
    simp [containsTok, hs]

/-- The highest-impact bump of a single commit is that commit's bump. -/
lemma releaseBump_singleton (m : String) : releaseBump [m] = commitBump m := by
  cases h : commitBump m <;> simp [releaseBump, h, Bump.rank]

/-- C4: the release versioning maps commit-message prefixes to version
bumps for every commit message: any feat!-prefixed message and any
message carrying a BREAKING CHANGE: footer is a major bump; any
feat-prefixed message without a breaking-change footer is a minor bump;
any fix-prefixed message without one is a patch bump; and any
chore/docs/test/ci prefixed message without one yields no release. -/
theorem conventional_commit_version_bumps (v : Version) :
    (∀ rest : String,
        nextRelease v [("feat!:" ++ rest : String)] =
          Option.some { major := v.major + 1, minor := 0, patch := 0 }) ∧
    (∀ pre post : String,
        nextRelease v [(pre ++ "BREAKING CHANGE:" ++ post : String)] =
          Option.some { major := v.major + 1, minor := 0, patch := 0 }) ∧
    (∀ rest : String,
        containsTok "BREAKING CHANGE:".toList (("feat:" ++ rest : String)).toList = false →
        nextRelease v [("feat:" ++ rest : String)] =
          Option.some { major := v.major, minor := v.minor + 1, patch := 0 }) ∧
    (∀ rest : String,
        containsTok "BREAKING CHANGE:".toList (("fix:" ++ rest : String)).toList = false →
        nextRelease v [("fix:" ++ rest : String)] =
          Option.some { major := v.major, minor := v.minor, patch := v.patch + 1 }) ∧
    (∀ rest : String,
        containsTok "BREAKING CHANGE:".toList (("chore:" ++ rest : String)).toList = false →
        nextRelease v [("chore:" ++ rest : String)] = Option.none) ∧
    (∀ rest : String,
        containsTok "BREAKING CHANGE:".toList (("docs:" ++ rest : String)).toList = false →
        nextRelease v [("docs:" ++ rest : String)] = Option.none) ∧
    (∀ rest : String,
        containsTok "BREAKING CHANGE:".toList (("test:" ++ rest : String)).toList = false →
        nextRelease v [("test:" ++ rest : String)] = Option.none) ∧
    (∀ rest : String,
        containsTok "BREAKING CHANGE:".toList (("ci:" ++ rest : String)).toList = false →
        nextRelease v [("ci:" ++ rest : String)] = Option.none) := by
  refine ⟨?_, ?_, ?_, ?_, ?_, ?_, ?_, ?_⟩
  · intro rest
    have hm : (("feat!:" ++ rest : String)).toList = "feat!:".toList ++ rest.toList :=
      String.data_append _ _
    have h1 : startsWithL "feat!:".toList (("feat!:" ++ rest : String)).toList = true := by
      rw [hm]
      exact startsWithL_append_self _ _
    have hb : commitBump ("feat!:" ++ rest) = Bump.major := by
      simp only [commitBump]
      rw [h1]
      simp
    simp [nextRelease, releaseBump_singleton, hb, applyBump]
  · intro pre post
    have hm1 : ((pre ++ "BREAKING CHANGE:" ++ post : String)).toList =
        (pre ++ "BREAKING CHANGE:" : String).toList ++ post.toList := String.data_append _ _
    have hm2 : ((pre ++ "BREAKING CHANGE:" : String)).toList =
        pre.toList ++ "BREAKING CHANGE:".toList := String.data_append _ _
    have hc : containsTok "BREAKING CHANGE:".toList
        ((pre ++ "BREAKING CHANGE:" ++ post : String)).toList = true := by
      rw [hm1, hm2, List.append_assoc]
      exact containsTok_append_left _ _ _ (containsTok_append_here _ _ (by decide))
    have hb : commitBump (pre ++ "BREAKING CHANGE:" ++ post) = Bump.major := by
      simp only [commitBump]
      rw [hc]
      simp
    simp [nextRelease, releaseBump_singleton, hb, applyBump]
  · intro rest h
    have hm : (("feat:" ++ rest : String)).toList = "feat:".toList ++ rest.toList :=
      String.data_append _ _
    have h1 : startsWithL "feat!:".toList (("feat:" ++ rest : String)).toList = false := by
      rw [hm]
      simp [startsWithL]
    have h3 : startsWithL "feat:".toList (("feat:" ++ rest : String)).toList = true := by
      rw [hm]
      exact startsWithL_append_self _ _
    have h4 : startsWithL "fix:".toList (("feat:" ++ rest : String)).toList = false := by
      rw [hm]
      simp [startsWithL]
    have hb : commitBump ("feat:" ++ rest) = Bump.minor := by
      simp only [commitBump]
      rw [h1, h, h3, h4]
      simp
    simp [nextRelease, releaseBump_singleton, hb, applyBump]
  · intro rest h
    have hm : (("fix:" ++ rest : String)).toList = "fix:".toList ++ rest.toList :=
      String.data_append _ _
    have h1 : startsWithL "feat!:".toList (("fix:" ++ rest : String)).toList = false := by
      rw [hm]
      simp [startsWithL]
    have h3 : startsWithL "feat:".toList (("fix:" ++ rest : String)).toList = false := by
      rw [hm]
      simp [startsWithL]
    have h4 : startsWithL "fix:".toList (("fix:" ++ rest : String)).toList = true := by
      rw [hm]
      exact startsWithL_append_self _ _
    have hb : commitBump ("fix:" ++ rest) = Bump.patch := by
      simp only [commitBump]
      rw [h1, h, h3, h4]
      simp
    simp [nextRelease, releaseBump_singleton, hb, applyBump]
  · intro rest h
    have hm : (("chore:" ++ rest : String)).toList = "chore:".toList ++ rest.toList :=
      String.data_append _ _
    have h1 : startsWithL "feat!:".toList (("chore:" ++ rest : String)).toList = false := by
      rw [hm]
      simp [startsWithL]
    have h3 : startsWithL "feat:".toList (("chore:" ++ rest : String)).toList = false := by
      rw [hm]
      simp [startsWithL]
    have h4 : startsWithL "fix:".toList (("chore:" ++ rest : String)).toList = false := by
      rw [hm]
      simp [startsWithL]
    have hb : commitBump ("chore:" ++ rest) = Bump.noRelease := by
      simp only [commitBump]
      rw [h1, h, h3, h4]
      simp
    simp [nextRelease, releaseBump_singleton, hb, applyBump]
  · intro rest h
    have hm : (("docs:" ++ rest : String)).toList = "docs:".toList ++ rest.toList :=
      String.data_append _ _
    have h1 : startsWithL "feat!:".toList (("docs:" ++ rest : String)).toList = false := by
      rw [hm]
      simp [startsWithL]
    have h3 : startsWithL "feat:".toList (("docs:" ++ rest : String)).toList = false := by
      rw [hm]
      simp [startsWithL]
    have h4 : startsWithL "fix:".toList (("docs:" ++ rest : String)).toList = false := by
      rw [hm]
      simp [startsWithL]
    have hb : commitBump ("docs:" ++ rest) = Bump.noRelease := by
      simp only [commitBump]
      rw [h1, h, h3, h4]
      simp
    simp [nextRelease, releaseBump_singleton, hb, applyBump]
  · intro rest h
    have hm : (("test:" ++ rest : String)).toList = "test:".toList ++ rest.toList :=
      String.data_append _ _
    have h1 : startsWithL "feat!:".toList (("test:" ++ rest : String)).toList = false := by
      rw [hm]
      simp [startsWithL]
    have h3 : startsWithL "feat:".toList (("test:" ++ rest : String)).toList = false := by
      rw [hm]
      simp [startsWithL]
    have h4 : startsWithL "fix:".toList (("test:" ++ rest : String)).toList = false := by
      rw [hm]
      simp [startsWithL]
    have hb : commitBump ("test:" ++ rest) = Bump.noRelease := by
      simp only [commitBump]
      rw [h1, h, h3, h4]
      simp
    simp [nextRelease, releaseBump_singleton, hb, applyBump]
  · intro rest h
    have hm : (("ci:" ++ rest : String)).toList = "ci:".toList ++ rest.toList :=
      String.data_append _ _
    have h1 : startsWithL "feat!:".toList (("ci:" ++ rest : String)).toList = false := by
      rw [hm]
      simp [startsWithL]
    have h3 : startsWithL "feat:".toList (("ci:" ++ rest : String)).toList = false := by
      rw [hm]
      simp [startsWithL]
    have h4 : startsWithL "fix:".toList (("ci:" ++ rest : String)).toList = false := by
      rw [hm]
      simp [startsWithL]
    have hb : commitBump ("ci:" ++ rest) = Bump.noRelease := by
      simp only [commitBump]
      rw [h1, h, h3, h4]
      simp
    simp [nextRelease, releaseBump_singleton, hb, applyBump]

/-- Witness for C4: the documented example message of each table row,
with the breaking-change provisos discharged concretely. -/
theorem conventional_commit_version_bumps_witness :
    nextRelease { major := 1, minor := 2, patch := 3 } [("feat!:" ++ " redesign API" : String)] =
      Option.some { major := 2, minor := 0, patch := 0 } ∧
    nextRelease { major := 1, minor := 2, patch := 3 }
      [("feat:" ++ " add user profile page" : String)] =
      Option.some { major := 1, minor := 3, patch := 0 } ∧
    nextRelease { major := 1, minor := 2, patch := 3 }
      [("fix:" ++ " correct login validation" : String)] =
      Option.some { major := 1, minor := 2, patch := 4 } ∧
    nextRelease { major := 1, minor := 2, patch := 3 }
      [("chore:" ++ " update dependencies" : String)] = Option.none ∧
    nextRelease { major := 1, minor := 2, patch := 3 }
      [("docs:" ++ " update readme" : String)] = Option.none ∧
    nextRelease { major := 1, minor := 2, patch := 3 }
      [("test:" ++ " add unit tests" : String)] = Option.none ∧
    nextRelease { major := 1, minor := 2, patch := 3 }
      [("ci:" ++ " tweak workflow" : String)] = Option.none :=
  ⟨(conventional_commit_version_bumps _).1 " redesign API",
   (conventional_commit_version_bumps _).2.2.1 " add user profile page" (by decide),
   (conventional_commit_version_bumps _).2.2.2.1 " correct login validation" (by decide),
   (conventional_commit_version_bumps _).2.2.2.2.1 " update dependencies" (by decide),
   (conventional_commit_version_bumps _).2.2.2.2.2.1 " update readme" (by decide),
   (conventional_commit_version_bumps _).2.2.2.2.2.2.1 " add unit tests" (by decide),
   (conventional_commit_version_bumps _).2.2.2.2.2.2.2 " tweak workflow" (by decide)⟩

/-- C7: the container health probe exits successfully exactly when the
HTTP GET against the /health endpoint returns status 200; the probed
port is the PORT environment variable defaulting to 3000; the
HEALTHCHECK options are a 30 second interval, 3 second timeout, 5 second
start period, and the container is marked unhealthy exactly once 3
consecutive probe failures have accumulated. -/
theorem health_probe_spec :
    (∀ response : Option Nat, healthProbeExit response = 0 ↔ response = Option.some 200) ∧
    resolvePort Option.none = 3000 ∧
    (∀ p, resolvePort (Option.some p) = p) ∧
    dockerfileHealthcheck =
      { intervalSeconds := 30, timeoutSeconds := 3, startPeriodSeconds := 5, retries := 3 } ∧
    (∀ n, markedUnhealthy dockerfileHealthcheck n = true ↔ 3 ≤ n) := by
  refine ⟨?_, rfl, fun p => rfl, rfl, ?_⟩
  · intro response
    rcases response with _ | code
    · simp [healthProbeExit]
    · by_cases h : code = 200 <;> simp [healthProbeExit, h]
  · intro n
    simp [markedUnhealthy, dockerfileHealthcheck]

/-- Witness for C7: a 200 response makes the probe exit 0, a 500
response and a failed request make it exit 1, and three consecutive
failures mark the container unhealthy while two do not. -/
theorem health_probe_spec_witness :
    healthProbeExit (Option.some 200) = 0 ∧
    markedUnhealthy dockerfileHealthcheck 3 = true ∧
    healthProbeExit (Option.some 500) ≠ 0 ∧
    healthProbeExit Option.none ≠ 0 ∧
    markedUnhealthy dockerfileHealthcheck 2 ≠ true := by
  refine ⟨(health_probe_spec.1 (Option.some 200)).mpr rfl,
    (health_probe_spec.2.2.2.2 3).mpr (by decide), ?_, ?_, ?_⟩
  · intro h
    have h2 := (health_probe_spec.1 (Option.some 500)).mp h
    simp at h2
  · intro h
    have h2 := (health_probe_spec.1 Option.none).mp h
    simp at h2
  · intro h
    exact absurd ((health_probe_spec.2.2.2.2 2).mp h) (by decide)

/-- Counterexample for C5: the post-build container-image scan of
staging-deploy.yml is configured with exit-code 0, so even a CRITICAL
finding (with a fix available) does not halt the stage. -/
theorem staging_image_scan_never_halts :
    stagingImageScan ∈ pipelineScans ∧
    reported stagingImageScan { severity := Severity.critical, fixAvailable := true } = true ∧
    scanStepFails stagingImageScan
      [{ severity := Severity.critical, fixAvailable := true }] = false := by
  decide

/-- A finding is reported by the pull-request scan exactly when its
severity is CRITICAL or HIGH and a fix is available. -/
lemma reported_prChecksScan_iff (f : Finding) :
    reported prChecksScan f = true ↔
      (f.severity = Severity.critical ∨ f.severity = Severity.high) ∧
        f.fixAvailable = true := by
  rcases f with ⟨sev, fix⟩
  cases sev <;> cases fix <;> decide

/-- C5 (amended): only the pull-request filesystem scan halts its stage:
it fails exactly when some finding has severity CRITICAL or HIGH and a
fix available (ignore-unfixed is set); the post-build image scan of
staging-deploy.yml runs with exit-code 0 and never fails the stage, its
findings are only uploaded to the Security tab. -/
theorem scan_failure_policy :
    (∀ findings : List Finding,
        scanStepFails prChecksScan findings = true ↔
          ∃ f ∈ findings,
            (f.severity = Severity.critical ∨ f.severity = Severity.high) ∧
              f.fixAvailable = true) ∧
    (∀ findings : List Finding, scanStepFails stagingImageScan findings = false) := by
  constructor
  · intro findings
    have hstep : scanStepFails prChecksScan findings =
        findings.any (reported prChecksScan) := by
      cases h : findings.any (reported prChecksScan)
      · simp only [scanStepFails, scanExitCode, h]
        rfl
      · simp only [scanStepFails, scanExitCode, h]
        rfl
    rw [hstep, List.any_eq_true]
    constructor
    · rintro ⟨f, hf, hrep⟩
      exact ⟨f, hf, (reported_prChecksScan_iff f).mp hrep⟩
    · rintro ⟨f, hf, hcond⟩
      exact ⟨f, hf, (reported_prChecksScan_iff f).mpr hcond⟩
  · intro findings
    cases h : findings.any (reported stagingImageScan)
    · simp only [scanStepFails, scanExitCode, h]
      rfl
    · simp only [scanStepFails, scanExitCode, h]
      rfl

/-- Witness for C5 (amended): a CRITICAL finding with a fix halts the
pull-request scan and does not halt the staging image scan. -/
theorem scan_failure_policy_witness :
    scanStepFails prChecksScan
      [{ severity := Severity.critical, fixAvailable := true }] = true ∧
    scanStepFails stagingImageScan
      [{ severity := Severity.critical, fixAvailable := true }] = false :=
  ⟨(scan_failure_policy.1 [{ severity := Severity.critical, fixAvailable := true }]).mpr
      ⟨{ severity := Severity.critical, fixAvailable := true },
        by decide, by decide, by decide⟩,
    scan_failure_policy.2 [{ severity := Severity.critical, fixAvailable := true }]⟩

/-! ## String lemmas for concurrency group keys -/

/-- String concatenation is left-cancellative. -/
lemma string_append_left_cancel {a b c : String} (h : a ++ b = a ++ c) : b = c := by
  apply String.ext
  have hd := congrArg String.data h
  rw [String.data_append, String.data_append] at hd
  exact List.append_cancel_left hd

/-- Within one workflow, equal group keys force equal refs. -/
lemma group_ref_inj (nm r₁ r₂ : String) (h : nm ++ "-" ++ r₁ = nm ++ "-" ++ r₂) :
    r₁ = r₂ :=
  string_append_left_cancel h

/-- Counterexample for C9: release-please.yml declares no concurrency
group, so a new run of the Release Please pipeline does not cancel an
in-progress run for the same branch. -/
theorem release_please_runs_not_cancelled :
    releasePlease ∈ pipelines ∧
    cancels { workflow := releasePlease, ref := "refs/heads/main" }
      { workflow := releasePlease, ref := "refs/heads/main" } = false := by
  decide

/-- C9 (amended): the pr-checks and staging-deploy pipelines cancel an
in-progress run of the same pipeline on the same ref (their concurrency
group is workflow name plus ref with cancel-in-progress on); a new run
never cancels a run of a different pipeline or of a different ref; the
release-please and production-deploy pipelines declare no concurrency
group and never cancel anything. -/
theorem concurrency_cancellation_policy :
    (∀ r : String,
        cancels { workflow := prChecks, ref := r }
          { workflow := prChecks, ref := r } = true) ∧
    (∀ r : String,
        cancels { workflow := stagingDeploy, ref := r }
          { workflow := stagingDeploy, ref := r } = true) ∧
    (∀ w₁ w₂ : Workflow, ∀ r₁ r₂ : String,
        w₁ ∈ pipelines → w₂ ∈ pipelines → w₁ ≠ w₂ →
        cancels { workflow := w₁, ref := r₁ } { workflow := w₂, ref := r₂ } = false) ∧
    (∀ w : Workflow, ∀ r₁ r₂ : String, w ∈ pipelines → r₁ ≠ r₂ →
        cancels { workflow := w, ref := r₁ } { workflow := w, ref := r₂ } = false) ∧
    (∀ (r : String) (old : Run),
        cancels { workflow := releasePlease, ref := r } old = false ∧
        cancels { workflow := productionDeploy, ref := r } old = false) := by
  refine ⟨?_, ?_, ?_, ?_, ?_⟩
  · intro r
    simp [cancels, prChecks, evalGroup]
  · intro r
    simp [cancels, stagingDeploy, evalGroup]
  · intro w₁ w₂ r₁ r₂ h₁ h₂ hne
    simp only [pipelines, List.mem_cons, List.not_mem_nil, or_false] at h₁ h₂
    rcases h₁ with rfl | rfl | rfl | rfl <;> rcases h₂ with rfl | rfl | rfl | rfl
    all_goals try rfl
    all_goals exact absurd rfl hne
  · intro w r₁ r₂ hw hne
    simp only [pipelines, List.mem_cons, List.not_mem_nil, or_false] at hw
    rcases hw with rfl | rfl | rfl | rfl
    · simp only [cancels, prChecks, evalGroup, Bool.true_and]
      exact decide_eq_false (fun he => hne (group_ref_inj _ _ _ he))
    · simp only [cancels, stagingDeploy, evalGroup, Bool.true_and]
      exact decide_eq_false (fun he => hne (group_ref_inj _ _ _ he))
    · rfl
    · rfl
  · intro r old
    exact ⟨rfl, rfl⟩

/-- Witness for C9 (amended): on the main branch, a new PR Checks run
cancels the in-progress PR Checks run but not a Staging Deploy run, and
refs/heads/main versus refs/heads/dev runs do not cancel each other. -/
theorem concurrency_cancellation_policy_witness :
    cancels { workflow := prChecks, ref := "refs/heads/main" }
      { workflow := prChecks, ref := "refs/heads/main" } = true ∧
    cancels { workflow := prChecks, ref := "refs/heads/main" }
      { workflow := stagingDeploy, ref := "refs/heads/main" } = false ∧
    cancels { workflow := prChecks, ref := "refs/heads/main" }
      { workflow := prChecks, ref := "refs/heads/dev" } = false :=
  ⟨concurrency_cancellation_policy.1 "refs/heads/main",
   concurrency_cancellation_policy.2.2.1 prChecks stagingDeploy
     "refs/heads/main" "refs/heads/main" (by decide) (by decide) (by decide),
   concurrency_cancellation_policy.2.2.2.1 prChecks
     "refs/heads/main" "refs/heads/dev" (by decide) (by decide)⟩

/-- C10: on a published release the promotion job retags whatever digest
the latest tag points to at promotion time: after promotion the release
tag points to the digest latest had; in particular there are registry
states (latest moved by a later merge to main) in which the promoted
digest differs from the image built from the release's own commit. -/
theorem promoted_image_is_latest :
    (∀ (reg : Registry) (releaseTag : String) (digest : Nat),
        reg.digestOf "latest" = Option.some digest →
          promoteImage reg releaseTag = Option.some (reg.push releaseTag digest) ∧
          (reg.push releaseTag digest).digestOf releaseTag = Option.some digest) ∧
    (∃ (reg : Registry) (releaseCommitDigest : Nat) (reg' : Registry),
        promoteImage reg "v1.2.0" = Option.some reg' ∧
        reg'.digestOf "v1.2.0" = reg.digestOf "latest" ∧
        reg'.digestOf "v1.2.0" ≠ Option.some releaseCommitDigest) := by
  constructor
  · intro reg releaseTag digest h
    constructor
    · simp [promoteImage, h]
    · simp [Registry.push, Registry.digestOf, List.find?]
  · exact ⟨{ tags := [("latest", 7)] }, 5, { tags := [("v1.2.0", 7), ("latest", 7)] },
      by decide, by decide, by decide⟩

/-- Witness for C10: a registry in which latest points to digest 3; the
promotion job pushes the release tag at digest 3. -/
theorem promoted_image_is_latest_witness :
    promoteImage { tags := [("latest", 3)] } "v1.0.0" =
      Option.some (Registry.push { tags := [("latest", 3)] } "v1.0.0" 3) :=
  (promoted_image_is_latest.1 { tags := [("latest", 3)] } "v1.0.0" 3 (by decide)).1
